import Mathlib

/-!
Verification of the core risk functions of `ascvd_calculator_pro.py`.

The three core functions (`calculate_ascvd_risk`, `adjust_risk`,
`get_risk_category`) are embedded shallowly:

* Python numeric values are modelled exactly: the decimal literals of the
  source and all additive/rounding arithmetic are rationals (`ℚ`); the
  transcendental part of the estimator (`math.log`, `math.exp`, float `**`)
  is modelled over `ℝ` with `Real.log`, `Real.exp` and `Real.rpow`.
* `race` and `sex` are the strings the source compares against
  (`"white"`, `"black"`, `"male"`, `"female"`), so the fallback branch of
  the coefficient lookup is modelled over all strings, as in the source.
* `math.log` raises `ValueError` exactly on non-positive arguments; this is
  modelled by `safeLog : ℚ → Option ℝ`, and the estimator returns `Option ℝ`
  (`none` = the Python call raises).
* Python `round(x, 2)` is modelled by `round2Q`/`round2R` (round the value
  multiplied by 100 to the nearest integer, divide by 100).  The half-even
  tie rule of Python and the half-up rule of `round` differ only at exact
  half-cent ties, which no property below touches.
-/

/-- The patient inputs of `calculate_ascvd_risk`, in source order. -/
structure PatientProfile where
  age : ℚ
  sex : String
  race : String
  total_cholesterol : ℚ
  hdl_cholesterol : ℚ
  systolic_bp : ℚ
  bp_treated : Bool
  diabetes : Bool
  smoker : Bool

/-- An ordered 8-tuple of coefficients, one per (race, sex) cohort. -/
structure CoefficientSet where
  c0 : ℚ
  c1 : ℚ
  c2 : ℚ
  c3 : ℚ
  c4 : ℚ
  c5 : ℚ
  c6 : ℚ
  c7 : ℚ
deriving DecidableEq

/-- Source line 36: `coeffs` for `race == 'white' and sex == 'male'`. -/
def whiteMaleCoeffs : CoefficientSet :=
  ⟨12.344, 11.853, -7.99, 1.797, 1.764, 7.837, 0.658, 0.9144⟩

/-- Source line 38: `coeffs` for `race == 'white' and sex == 'female'`. -/
def whiteFemaleCoeffs : CoefficientSet :=
  ⟨-29.799, 13.54, -13.578, 2.019, 1.957, 7.574, 0.661, 0.9665⟩

/-- Source line 40: `coeffs` for `race == 'black' and sex == 'male'`. -/
def blackMaleCoeffs : CoefficientSet :=
  ⟨2.469, 0.302, -0.307, 1.916, 1.809, 0.549, 0.645, 0.8954⟩

/-- Source line 42: `coeffs` for `race == 'black' and sex == 'female'`. -/
def blackFemaleCoeffs : CoefficientSet :=
  ⟨17.114, 0.940, -18.920, 29.291, 27.82, 0.691, 0.874, 0.9533⟩

/-- Source lines 35-44: the chained conditional selecting `coeffs`. -/
def selectCoeffs (race sex : String) : CoefficientSet :=
  if race = "white" ∧ sex = "male" then whiteMaleCoeffs
  else if race = "white" ∧ sex = "female" then whiteFemaleCoeffs
  else if race = "black" ∧ sex = "male" then blackMaleCoeffs
  else if race = "black" ∧ sex = "female" then blackFemaleCoeffs
  else whiteMaleCoeffs

/-- `math.log x`: raises (returns `none`) exactly when `x ≤ 0`. -/
noncomputable def safeLog (x : ℚ) : Option ℝ :=
  if x ≤ 0 then none else some (Real.log x)

/-- Python `round(x, 2)` on the exact rational value of `x`. -/
def round2Q (x : ℚ) : ℚ := ((round (x * 100) : ℤ) : ℚ) / 100

/-- Python `round(x, 2)` on a real value. -/
noncomputable def round2R (x : ℝ) : ℝ := ((round (x * 100) : ℤ) : ℝ) / 100

/-- Source lines 33-64: `calculate_ascvd_risk`.  `none` models the
`ValueError` that `math.log` raises on a non-positive argument. -/
noncomputable def calculate_ascvd_risk (p : PatientProfile) : Option ℝ :=
  let coeffs := selectCoeffs p.race p.sex
  do
    let ln_age ← safeLog p.age
    let ln_total_chol ← safeLog p.total_cholesterol
    let ln_hdl ← safeLog p.hdl_cholesterol
    let ln_sbp ← safeLog p.systolic_bp
    let sbp_term : ℝ :=
      if p.bp_treated then (coeffs.c3 : ℝ) * ln_sbp else (coeffs.c4 : ℝ) * ln_sbp
    let smoker_term : ℝ := if p.smoker then (coeffs.c5 : ℝ) else 0
    let diabetes_term : ℝ := if p.diabetes then (coeffs.c6 : ℝ) else 0
    let baseline_survival : ℝ := (coeffs.c7 : ℝ)
    let sum_terms : ℝ :=
      (coeffs.c0 : ℝ) * ln_age + (coeffs.c1 : ℝ) * ln_total_chol +
        (coeffs.c2 : ℝ) * ln_hdl + sbp_term + smoker_term + diabetes_term
    let risk : ℝ := 1 - baseline_survival ^ Real.exp (sum_terms - sum_terms)
    return round2R (risk * 100)

/-- Source lines 66-76: `adjust_risk`.  The shadowed `let`s mirror the
sequential updates of the accumulator `adjusted_risk`. -/
def adjust_risk (risk : ℚ) (family_history : Bool) (hs_crp : ℚ)
    (cac_score : ℤ) : ℚ :=
  let adjusted_risk := risk
  let adjusted_risk := if family_history then adjusted_risk + 2 else adjusted_risk
  let adjusted_risk := if hs_crp > 2.0 then adjusted_risk + 1 else adjusted_risk
  let adjusted_risk :=
    if cac_score > 100 then adjusted_risk + 5
    else if cac_score = 0 then max (adjusted_risk - 5) 0
    else adjusted_risk
  round2Q adjusted_risk

/-- Source lines 78-86: `get_risk_category`. -/
def get_risk_category (risk : ℚ) : String × String :=
  if risk < 5 then ("Low Risk (<5%)", "green")
  else if 5 ≤ risk ∧ risk < 7.5 then ("Borderline Risk (5–7.5%)", "yellow")
  else if 7.5 ≤ risk ∧ risk < 20 then ("Intermediate Risk (7.5–20%)", "orange")
  else ("High Risk (≥20%)", "red")

/-! ### Helper lemmas -/

/-- When every logarithm argument is positive, the estimator succeeds and,
because the exponent `sum_terms - sum_terms` cancels to `0`, the value is
the constant `round((1 - coeffs[7]) * 100, 2)` of the selected set. -/
lemma calculate_ascvd_risk_of_pos (p : PatientProfile)
    (h1 : 0 < p.age) (h2 : 0 < p.total_cholesterol)
    (h3 : 0 < p.hdl_cholesterol) (h4 : 0 < p.systolic_bp) :
    calculate_ascvd_risk p =
      some (round2R ((1 - ((selectCoeffs p.race p.sex).c7 : ℝ)) * 100)) := by
  simp only [calculate_ascvd_risk, safeLog,
    if_neg (not_le.mpr h1), if_neg (not_le.mpr h2),
    if_neg (not_le.mpr h3), if_neg (not_le.mpr h4),
    sub_self, Real.exp_zero, Real.rpow_one]
  rfl

/-- `round` commutes with the cast `ℚ → ℝ`, hence so does rounding to two
decimal places. -/
lemma round2R_ratCast (q : ℚ) : round2R (q : ℝ) = ((round2Q q : ℚ) : ℝ) := by
  unfold round2R round2Q
  rw [show ((q : ℝ) * 100) = ((q * 100 : ℚ) : ℝ) by push_cast; ring,
    Rat.round_cast]
  push_cast
  ring

/-- Successful estimation, with the result expressed as the cast of an exact
rational value. -/
lemma calculate_ascvd_risk_of_pos_rat (p : PatientProfile)
    (h1 : 0 < p.age) (h2 : 0 < p.total_cholesterol)
    (h3 : 0 < p.hdl_cholesterol) (h4 : 0 < p.systolic_bp) :
    calculate_ascvd_risk p =
      some ((round2Q ((1 - (selectCoeffs p.race p.sex).c7) * 100) : ℚ) : ℝ) := by
  rw [calculate_ascvd_risk_of_pos p h1 h2 h3 h4,
    show ((1 - ((selectCoeffs p.race p.sex).c7 : ℝ)) * 100)
        = (((1 - (selectCoeffs p.race p.sex).c7) * 100 : ℚ) : ℝ) by push_cast; ring,
    round2R_ratCast]

/-- Any race other than `"white"`/`"black"` hits the final `else` branch. -/
lemma selectCoeffs_fallback (race sex : String)
    (hw : race ≠ "white") (hb : race ≠ "black") :
    selectCoeffs race sex = whiteMaleCoeffs := by
  simp [selectCoeffs, hw, hb]

/-- With race `"white"` and an unmatched sex string, the `else` branch fires. -/
lemma selectCoeffs_white_unmatched (sex : String)
    (hm : sex ≠ "male") (hf : sex ≠ "female") :
    selectCoeffs "white" sex = whiteMaleCoeffs := by
  simp [selectCoeffs, hm, hf]

/-- With race `"black"` and an unmatched sex string, the `else` branch fires. -/
lemma selectCoeffs_black_unmatched (sex : String)
    (hm : sex ≠ "male") (hf : sex ≠ "female") :
    selectCoeffs "black" sex = whiteMaleCoeffs := by
  simp [selectCoeffs, hm, hf]

/-- Rounding to two decimals is monotone. -/
lemma round2Q_mono {x y : ℚ} (h : x ≤ y) : round2Q x ≤ round2Q y := by
  unfold round2Q
  have hr : round (x * 100) ≤ round (y * 100) := by
    rw [round_eq, round_eq]
    exact Int.floor_mono (by linarith)
  have hc : ((round (x * 100) : ℤ) : ℚ) ≤ ((round (y * 100) : ℤ) : ℚ) := by
    exact_mod_cast hr
  linarith

/-- Rounding to two decimals preserves nonnegativity. -/
lemma round2Q_nonneg {x : ℚ} (h : 0 ≤ x) : 0 ≤ round2Q x := by
  have h0 : round2Q 0 = 0 := by norm_num [round2Q, round_eq]
  calc (0 : ℚ) = round2Q 0 := h0.symm
    _ ≤ round2Q x := round2Q_mono h

/-! ### Claim theorems -/

/-- C1: for every profile with positive age, total cholesterol, HDL and
systolic BP, `calculate_ascvd_risk` returns `round((1 - coeffs[7]) * 100, 2)`
for the selected coefficient set, and the result depends only on race and
sex — it is invariant to all clinical inputs, because the exponent
`sum_terms - sum_terms` is exactly zero, so the risk fraction is the
constant `1 - coeffs[7]`. -/
theorem baseline_risk_constant_of_pos (p : PatientProfile)
    (h1 : 0 < p.age) (h2 : 0 < p.total_cholesterol)
    (h3 : 0 < p.hdl_cholesterol) (h4 : 0 < p.systolic_bp) :
    calculate_ascvd_risk p =
      some (round2R ((1 - ((selectCoeffs p.race p.sex).c7 : ℝ)) * 100)) ∧
    ∀ q : PatientProfile, q.race = p.race → q.sex = p.sex →
      0 < q.age → 0 < q.total_cholesterol → 0 < q.hdl_cholesterol →
      0 < q.systolic_bp → calculate_ascvd_risk q = calculate_ascvd_risk p := by
  refine ⟨calculate_ascvd_risk_of_pos p h1 h2 h3 h4, ?_⟩
  intro q hr hs g1 g2 g3 g4
  rw [calculate_ascvd_risk_of_pos q g1 g2 g3 g4,
    calculate_ascvd_risk_of_pos p h1 h2 h3 h4, hr, hs]

/-- Witness for C1 at a concrete white-male profile. -/
theorem baseline_risk_constant_of_pos_witness :
    calculate_ascvd_risk ⟨55, "male", "white", 200, 50, 130, false, false, false⟩ =
      some (round2R ((1 - ((selectCoeffs "white" "male").c7 : ℝ)) * 100)) :=
  (baseline_risk_constant_of_pos
    ⟨55, "male", "white", 200, 50, 130, false, false, false⟩
    (by norm_num) (by norm_num) (by norm_num) (by norm_num)).1

/-- C3: `get_risk_category` maps the four half-open bands to their labels;
every boundary value (5, 7.5, 20) belongs to the band starting there. -/
theorem classify_bands (x : ℚ) :
    (x < 5 → get_risk_category x = ("Low Risk (<5%)", "green")) ∧
    (5 ≤ x → x < 7.5 → get_risk_category x = ("Borderline Risk (5–7.5%)", "yellow")) ∧
    (7.5 ≤ x → x < 20 → get_risk_category x = ("Intermediate Risk (7.5–20%)", "orange")) ∧
    (20 ≤ x → get_risk_category x = ("High Risk (≥20%)", "red")) := by
  refine ⟨fun h => ?_, fun h1 h2 => ?_, fun h1 h2 => ?_, fun h => ?_⟩ <;>
    unfold get_risk_category
  · rw [if_pos h]
  · rw [if_neg (not_lt.mpr h1), if_pos ⟨h1, h2⟩]
  · rw [if_neg (not_lt.mpr (by linarith)), if_neg (by rintro ⟨-, hlt⟩; linarith),
      if_pos ⟨h1, h2⟩]
  · rw [if_neg (not_lt.mpr (by linarith)), if_neg (by rintro ⟨-, hlt⟩; linarith),
      if_neg (by rintro ⟨-, hlt⟩; linarith)]

/-- Witness for C3 at the boundary and near-boundary points of the claim. -/
theorem classify_bands_witness :
    get_risk_category (4999/1000) = ("Low Risk (<5%)", "green") ∧
    get_risk_category 5 = ("Borderline Risk (5–7.5%)", "yellow") ∧
    get_risk_category (75/10) = ("Intermediate Risk (7.5–20%)", "orange") ∧
    get_risk_category (19999/1000) = ("Intermediate Risk (7.5–20%)", "orange") ∧
    get_risk_category 20 = ("High Risk (≥20%)", "red") :=
  ⟨(classify_bands _).1 (by norm_num),
   (classify_bands _).2.1 (by norm_num) (by norm_num),
   (classify_bands _).2.2.1 (by norm_num) (by norm_num),
   (classify_bands _).2.2.1 (by norm_num) (by norm_num),
   (classify_bands _).2.2.2 (by norm_num)⟩

/-- C5: the estimator signals an error (`none`, modelling the `ValueError`
of `math.log`) exactly when one of the four logarithm arguments is ≤ 0;
for all other inputs it succeeds.  (`adjust_risk` and `get_risk_category`
are total functions of their arguments by construction.) -/
theorem estimator_error_iff (p : PatientProfile) :
    calculate_ascvd_risk p = none ↔
      p.age ≤ 0 ∨ p.total_cholesterol ≤ 0 ∨ p.hdl_cholesterol ≤ 0 ∨
        p.systolic_bp ≤ 0 := by
  by_cases h1 : p.age ≤ 0 <;> by_cases h2 : p.total_cholesterol ≤ 0 <;>
    by_cases h3 : p.hdl_cholesterol ≤ 0 <;> by_cases h4 : p.systolic_bp ≤ 0 <;>
    simp [calculate_ascvd_risk, safeLog, h1, h2, h3, h4]

/-- Witness for C5: a profile with zero age errors, a valid one does not. -/
theorem estimator_error_iff_witness :
    (calculate_ascvd_risk ⟨0, "male", "white", 200, 50, 130, false, false, false⟩ =
      none) ∧
    ¬(calculate_ascvd_risk ⟨55, "male", "white", 200, 50, 130, false, false, false⟩ =
      none) :=
  ⟨(estimator_error_iff _).mpr (Or.inl (by norm_num)),
   fun h => by
    have := (estimator_error_iff
      ⟨55, "male", "white", 200, 50, 130, false, false, false⟩).mp h
    norm_num at this⟩

/-- C6: coefficient selection is an exact lookup on the (race, sex) pair;
any race outside `{"white", "black"}` gets the white-male set regardless of
sex, so an other-race female receives the white-male set, which differs
from the white-female set. -/
theorem coeff_lookup_exact :
    selectCoeffs "white" "male" = whiteMaleCoeffs ∧
    selectCoeffs "white" "female" = whiteFemaleCoeffs ∧
    selectCoeffs "black" "male" = blackMaleCoeffs ∧
    selectCoeffs "black" "female" = blackFemaleCoeffs ∧
    (∀ race sex : String, race ≠ "white" → race ≠ "black" →
      selectCoeffs race sex = whiteMaleCoeffs) ∧
    selectCoeffs "other" "female" = whiteMaleCoeffs ∧
    whiteMaleCoeffs ≠ whiteFemaleCoeffs := by
  refine ⟨rfl, rfl, rfl, rfl, selectCoeffs_fallback, rfl, ?_⟩
  simp [whiteMaleCoeffs, whiteFemaleCoeffs]
  norm_num

/-- Witness for C6: the fallback clause applied to an unknown race. -/
theorem coeff_lookup_exact_witness :
    selectCoeffs "asian" "female" = whiteMaleCoeffs :=
  coeff_lookup_exact.2.2.2.2.1 "asian" "female" (by decide) (by decide)

/-- C8: each core function is deterministic — identical arguments yield
identical results.  (The source functions read only their parameters and
module-level constants and mutate nothing, which is what licenses their
embedding as pure functions here.) -/
theorem core_functions_deterministic (p₁ p₂ : PatientProfile)
    (r₁ r₂ c₁ c₂ x₁ x₂ : ℚ) (f₁ f₂ : Bool) (k₁ k₂ : ℤ)
    (hp : p₁ = p₂) (hr : r₁ = r₂) (hf : f₁ = f₂) (hc : c₁ = c₂)
    (hk : k₁ = k₂) (hx : x₁ = x₂) :
    calculate_ascvd_risk p₁ = calculate_ascvd_risk p₂ ∧
    adjust_risk r₁ f₁ c₁ k₁ = adjust_risk r₂ f₂ c₂ k₂ ∧
    get_risk_category x₁ = get_risk_category x₂ := by
  subst hp; subst hr; subst hf; subst hc; subst hk; subst hx
  exact ⟨rfl, rfl, rfl⟩

/-- Witness for C8 at concrete arguments. -/
theorem core_functions_deterministic_witness :
    calculate_ascvd_risk ⟨55, "male", "white", 200, 50, 130, false, false, false⟩ =
      calculate_ascvd_risk ⟨55, "male", "white", 200, 50, 130, false, false, false⟩ ∧
    adjust_risk 8.56 true 3 150 = adjust_risk 8.56 true 3 150 ∧
    get_risk_category 16.56 = get_risk_category 16.56 :=
  core_functions_deterministic _ _ _ _ _ _ _ _ _ _ _ _
    rfl rfl rfl rfl rfl rfl

/-- C2 counterexample: with `cacScore = 50` and all other markers inactive
the input is NOT always returned unchanged — the final `round(_, 2)` alters
any input that is not already a two-decimal value, e.g. `0.001` becomes
`0`. -/
theorem adjust_risk_unchanged_counterexample :
    adjust_risk (1/1000) false 0 50 ≠ 1/1000 := by
  norm_num [adjust_risk, round2Q, round_eq]

/-- C2 (amended): `adjust_risk` adds 2 iff familyHistory, adds 1 iff
hsCRP > 2.0 (exactly 2.0 adds nothing), then applies exactly one CAC branch
(+5 if cacScore > 100; floor-at-0 minus 5 if cacScore = 0; neither for
1 ≤ cacScore ≤ 100) and rounds to 2 decimals; with cacScore in [1, 100] and
the other markers inactive, the input is returned unchanged provided it is
already a two-decimal value. -/
theorem adjust_risk_spec (r : ℚ) (fh : Bool) (crp : ℚ) (cac : ℤ) :
    (adjust_risk r fh crp cac =
      round2Q (if 100 < cac
        then r + (if fh then 2 else 0) + (if (2.0 : ℚ) < crp then 1 else 0) + 5
        else if cac = 0
        then max (r + (if fh then 2 else 0) + (if (2.0 : ℚ) < crp then 1 else 0) - 5) 0
        else r + (if fh then 2 else 0) + (if (2.0 : ℚ) < crp then 1 else 0))) ∧
    (1 ≤ cac → cac ≤ 100 → fh = false → crp ≤ 2 → round2Q r = r →
      adjust_risk r fh crp cac = r) := by
  constructor
  · unfold adjust_risk
    split_ifs <;> congr 1 <;> first | rfl | ring_nf
  · intro hc1 hc2 hfh hcrp hround
    subst hfh
    have hcac0 : cac ≠ 0 := by omega
    have hcacle : ¬(100 < cac) := not_lt.mpr hc2
    have hcrp' : ¬((2.0 : ℚ) < crp) := by
      rw [show (2.0 : ℚ) = 2 by norm_num]
      exact not_lt.mpr hcrp
    simp [adjust_risk, hcac0, hcacle, hcrp', hround]

/-- Witness for C2 (amended) at a two-decimal input with `cacScore = 50`. -/
theorem adjust_risk_spec_witness : adjust_risk 8.56 false 0 50 = 8.56 :=
  (adjust_risk_spec 8.56 false 0 50).2 (by norm_num) (by norm_num) rfl
    (by norm_num) (by norm_num [round2Q, round_eq])

/-- C4 counterexample: the adjusted risk is NOT clamped to be nonnegative
for every input — a negative baseline with `cacScore = 50` passes through
the no-op CAC branch and stays negative. -/
theorem adjust_risk_nonneg_counterexample :
    ¬(0 ≤ adjust_risk (-10) false 0 50) := by
  norm_num [adjust_risk, round2Q, round_eq]

/-- C4 (amended): for every NONNEGATIVE baseline risk and all markers the
adjusted risk is nonnegative (the only subtracting branch floors at 0, and
rounding preserves nonnegativity). -/
theorem adjust_risk_nonneg_of_nonneg (r : ℚ) (fh : Bool) (crp : ℚ)
    (cac : ℤ) (h : 0 ≤ r) : 0 ≤ adjust_risk r fh crp cac := by
  unfold adjust_risk
  apply round2Q_nonneg
  split_ifs <;> first | exact le_max_right _ 0 | linarith

/-- Witness for C4 (amended) at a concrete nonnegative input. -/
theorem adjust_risk_nonneg_of_nonneg_witness :
    0 ≤ adjust_risk 8.56 false 0 0 :=
  adjust_risk_nonneg_of_nonneg 8.56 false 0 0 (by norm_num)

/-- C7: end-to-end — any white-male profile with positive clinical values
gets baseline 8.56; with markers (familyHistory, hsCRP 3.0, CAC 150) the
adjusted risk is 16.56, Intermediate/orange; with markers (none, hsCRP 0,
CAC 0) the adjusted risk is 3.56, Low/green. -/
theorem end_to_end_white_male (age tc hdl sbp : ℚ) (bpT dia smo : Bool)
    (h1 : 0 < age) (h2 : 0 < tc) (h3 : 0 < hdl) (h4 : 0 < sbp) :
    calculate_ascvd_risk ⟨age, "male", "white", tc, hdl, sbp, bpT, dia, smo⟩ =
      some ((8.56 : ℚ) : ℝ) ∧
    adjust_risk 8.56 true 3 150 = 16.56 ∧
    get_risk_category 16.56 = ("Intermediate Risk (7.5–20%)", "orange") ∧
    adjust_risk 8.56 false 0 0 = 3.56 ∧
    get_risk_category 3.56 = ("Low Risk (<5%)", "green") := by
  refine ⟨?_, ?_, ?_, ?_, ?_⟩
  · rw [calculate_ascvd_risk_of_pos_rat _ h1 h2 h3 h4]
    norm_num [selectCoeffs, whiteMaleCoeffs, round2Q, round_eq]
  · norm_num [adjust_risk, round2Q, round_eq]
  · norm_num [get_risk_category]
  · norm_num [adjust_risk, round2Q, round_eq]
  · norm_num [get_risk_category]

/-- Witness for C7 at the default clinical values of the source form. -/
theorem end_to_end_white_male_witness :
    calculate_ascvd_risk ⟨55, "male", "white", 200, 50, 130, false, false, false⟩ =
      some ((8.56 : ℚ) : ℝ) :=
  (end_to_end_white_male 55 200 50 130 false false false
    (by norm_num) (by norm_num) (by norm_num) (by norm_num)).1

/-- C9: for every profile with positive clinical values the estimator
returns exactly one of the four constants 8.56 (white-male, and any race
outside white/black), 3.35 (white-female), 10.46 (black-male), 4.67
(black-female); the baseline is strictly positive and at most 10.46. -/
theorem baseline_risk_four_values (p : PatientProfile)
    (h1 : 0 < p.age) (h2 : 0 < p.total_cholesterol)
    (h3 : 0 < p.hdl_cholesterol) (h4 : 0 < p.systolic_bp) :
    ∃ v : ℚ, calculate_ascvd_risk p = some ((v : ℚ) : ℝ) ∧
      (v = 8.56 ∨ v = 3.35 ∨ v = 10.46 ∨ v = 4.67) ∧
      0 < v ∧ v ≤ 10.46 ∧
      (p.race = "white" → p.sex = "male" → v = 8.56) ∧
      (p.race = "white" → p.sex = "female" → v = 3.35) ∧
      (p.race = "black" → p.sex = "male" → v = 10.46) ∧
      (p.race = "black" → p.sex = "female" → v = 4.67) ∧
      (p.race ≠ "white" → p.race ≠ "black" → v = 8.56) := by
  have key := calculate_ascvd_risk_of_pos_rat p h1 h2 h3 h4
  have nmf : ("male" : String) ≠ "female" := by decide
  have nwb : ("white" : String) ≠ "black" := by decide
  by_cases hw : p.race = "white"
  · by_cases hm : p.sex = "male"
    · refine ⟨8.56, ?_, by norm_num, by norm_num, by norm_num,
        fun _ _ => rfl,
        fun _ hf => absurd (hm.symm.trans hf) nmf,
        fun hb _ => absurd (hw.symm.trans hb) nwb,
        fun hb _ => absurd (hw.symm.trans hb) nwb,
        fun hnw _ => absurd hw hnw⟩
      rw [key, hw, hm, show selectCoeffs "white" "male" = whiteMaleCoeffs from rfl]
      norm_num [whiteMaleCoeffs, round2Q, round_eq]
    · by_cases hf : p.sex = "female"
      · refine ⟨3.35, ?_, by norm_num, by norm_num, by norm_num,
          fun _ hm' => absurd hm' hm,
          fun _ _ => rfl,
          fun hb _ => absurd (hw.symm.trans hb) nwb,
          fun hb _ => absurd (hw.symm.trans hb) nwb,
          fun hnw _ => absurd hw hnw⟩
        rw [key, hw, hf,
          show selectCoeffs "white" "female" = whiteFemaleCoeffs from rfl]
        norm_num [whiteFemaleCoeffs, round2Q, round_eq]
      · refine ⟨8.56, ?_, by norm_num, by norm_num, by norm_num,
          fun _ hm' => absurd hm' hm,
          fun _ hf' => absurd hf' hf,
          fun hb _ => absurd (hw.symm.trans hb) nwb,
          fun hb _ => absurd (hw.symm.trans hb) nwb,
          fun hnw _ => absurd hw hnw⟩
        rw [hw] at key
        rw [selectCoeffs_white_unmatched p.sex hm hf] at key
        rw [key]
        norm_num [whiteMaleCoeffs, round2Q, round_eq]
  · by_cases hb : p.race = "black"
    · by_cases hm : p.sex = "male"
      · refine ⟨10.46, ?_, by norm_num, by norm_num, by norm_num,
          fun hw' _ => absurd hw' hw,
          fun hw' _ => absurd hw' hw,
          fun _ _ => rfl,
          fun _ hf' => absurd (hm.symm.trans hf') nmf,
          fun _ hnb => absurd hb hnb⟩
        rw [key, hb, hm,
          show selectCoeffs "black" "male" = blackMaleCoeffs from rfl]
        norm_num [blackMaleCoeffs, round2Q, round_eq]
      · by_cases hf : p.sex = "female"
        · refine ⟨4.67, ?_, by norm_num, by norm_num, by norm_num,
            fun hw' _ => absurd hw' hw,
            fun hw' _ => absurd hw' hw,
            fun _ hm' => absurd hm' hm,
            fun _ _ => rfl,
            fun _ hnb => absurd hb hnb⟩
          rw [key, hb, hf,
            show selectCoeffs "black" "female" = blackFemaleCoeffs from rfl]
          norm_num [blackFemaleCoeffs, round2Q, round_eq]
        · refine ⟨8.56, ?_, by norm_num, by norm_num, by norm_num,
            fun hw' _ => absurd hw' hw,
            fun hw' _ => absurd hw' hw,
            fun _ hm' => absurd hm' hm,
            fun _ hf' => absurd hf' hf,
            fun _ hnb => absurd hb hnb⟩
          rw [hb] at key
          rw [selectCoeffs_black_unmatched p.sex hm hf] at key
          rw [key]
          norm_num [whiteMaleCoeffs, round2Q, round_eq]
    · refine ⟨8.56, ?_, by norm_num, by norm_num, by norm_num,
        fun hw' _ => absurd hw' hw,
        fun hw' _ => absurd hw' hw,
        fun hb' _ => absurd hb' hb,
        fun hb' _ => absurd hb' hb,
        fun _ _ => rfl⟩
      rw [selectCoeffs_fallback p.race p.sex hw hb] at key
      rw [key]
      norm_num [whiteMaleCoeffs, round2Q, round_eq]

/-- Witness for C9 at a concrete black-female profile. -/
theorem baseline_risk_four_values_witness :
    ∃ v : ℚ,
      calculate_ascvd_risk ⟨60, "female", "black", 180, 45, 120, true, true, true⟩ =
        some ((v : ℚ) : ℝ) ∧
      (v = 8.56 ∨ v = 3.35 ∨ v = 10.46 ∨ v = 4.67) ∧
      0 < v ∧ v ≤ 10.46 ∧
      (("black" : String) = "white" → ("female" : String) = "male" → v = 8.56) ∧
      (("black" : String) = "white" → ("female" : String) = "female" → v = 3.35) ∧
      (("black" : String) = "black" → ("female" : String) = "male" → v = 10.46) ∧
      (("black" : String) = "black" → ("female" : String) = "female" → v = 4.67) ∧
      (("black" : String) ≠ "white" → ("black" : String) ≠ "black" → v = 8.56) :=
  baseline_risk_four_values ⟨60, "female", "black", 180, 45, 120, true, true, true⟩
    (by norm_num) (by norm_num) (by norm_num) (by norm_num)

/-- C10: `adjust_risk` is monotone nondecreasing in its first argument for
every fixed marker record. -/
theorem adjust_risk_monotone (r₁ r₂ : ℚ) (fh : Bool) (crp : ℚ) (cac : ℤ)
    (h : r₁ ≤ r₂) : adjust_risk r₁ fh crp cac ≤ adjust_risk r₂ fh crp cac := by
  unfold adjust_risk
  apply round2Q_mono
  split_ifs <;> first | exact max_le_max (by linarith) le_rfl | linarith

/-- Witness for C10 at concrete inputs. -/
theorem adjust_risk_monotone_witness :
    adjust_risk 3 false 0 50 ≤ adjust_risk 8.56 false 0 50 :=
  adjust_risk_monotone 3 8.56 false 0 50 (by norm_num)
